import Mathlib

/-
Verification of zever-2-pvoutput.py, a script that polls a Zeverlution solar
inverter during daylight, logs readings to a CSV file and uploads them to
PVOutput.  Python strings are modelled as lists of characters, Python floats
as rationals rounded to the IEEE binary64 grid, and the script's I/O
(wall clock, HTTP responses, file system) as explicit parameters.
-/

set_option autoImplicit false

set_option allowUnsafeReducibility true
set_option maxRecDepth 20000
attribute [local semireducible] Rat.mul Rat.add Rat.sub Rat.inv

namespace Zever

/-- Python strings are modelled as lists of characters. -/
abbrev PyStr := List Char

instance {ε α : Type} [DecidableEq ε] [DecidableEq α] : DecidableEq (Except ε α) := fun x y =>
  match x, y with
  | .error a, .error b =>
    if h : a = b then .isTrue (by rw [h]) else .isFalse (by simp [h])
  | .error _, .ok _ => .isFalse (by simp)
  | .ok _, .error _ => .isFalse (by simp)
  | .ok a, .ok b =>
    if h : a = b then .isTrue (by rw [h]) else .isFalse (by simp [h])

/-- Exception classes relevant to the script's parsing code: the built-in
IndexError and ValueError actually raised by it, and the MalformedInputError
named by the specification (which the script never defines nor raises). -/
inductive PyError where
  | indexError
  | valueError
  | malformedInput
  deriving DecidableEq

/-- Embeds Python str.split(sep) for a one-character separator: the list of
(possibly empty) chunks between occurrences of the separator.  On the empty
string it returns one empty chunk, as Python does for explicit separators. -/
def pySplit (sep : Char) : List Char → List (List Char)
  | [] => [[]]
  | c :: cs =>
    let r := pySplit sep cs
    if c = sep then [] :: r
    else (c :: r.headI) :: r.tail

/-- Numeric value of a digit string (most significant digit first). -/
def digitsVal (s : PyStr) : ℕ :=
  s.foldl (fun a c => 10 * a + (c.toNat - 48)) 0

/-- Embeds Python int(str) on the strings the script feeds it: the value of a
nonempty all-digit string, failure (a ValueError) otherwise.  The real int()
also accepts signs and surrounding whitespace, which never occur in the
device payload fields the script parses. -/
def pyInt (s : PyStr) : Option ℕ :=
  if s ≠ [] ∧ s.all Char.isDigit = true then some (digitsVal s) else none

/-- Rounds a rational to the nearest integer, ties going to the even integer,
as IEEE round-to-nearest-even does. -/
def roundHalfEven (q : ℚ) : ℤ :=
  if q - ⌊q⌋ < 1/2 then ⌊q⌋
  else if q - ⌊q⌋ = 1/2 then (if ⌊q⌋ % 2 = 0 then ⌊q⌋ else ⌊q⌋ + 1)
  else ⌊q⌋ + 1

/-- Base-two logarithm of a natural number by repeated halving, with explicit
fuel so that it is structurally recursive; agrees with Nat.log2 whenever the
fuel is at least the argument. -/
def log2Fuel : ℕ → ℕ → ℕ
  | 0, _ => 0
  | fuel + 1, n => if 2 ≤ n then log2Fuel fuel (n / 2) + 1 else 0

/-- Base-two logarithm of a natural number (0 for inputs below 2). -/
def natLog2 (n : ℕ) : ℕ := log2Fuel n n

/-- Binade exponent of a positive rational: the unique e with 2 ^ e ≤ q < 2 ^ (e + 1).
Arbitrary on nonpositive inputs (callers guard against them). -/
def ilog2 (q : ℚ) : ℤ :=
  if 1 ≤ q then (natLog2 (Int.toNat ⌊q⌋) : ℤ)
  else
    let m := natLog2 (Int.toNat ⌊1 / q⌋)
    if q = 1 / (2 : ℚ) ^ m then -(m : ℤ) else -(m : ℤ) - 1

/-- Models rounding a real (here rational) value to the nearest IEEE binary64
double with round-to-nearest, ties-to-even: the significand is forced onto a
53-bit grid scaled by the value's binade.  Faithful for values in the normal
finite range of binary64, which covers every value the script computes;
nonpositive inputs (never produced by the script) map to 0. -/
def toDouble (q : ℚ) : ℚ :=
  if q ≤ 0 then 0
  else
    let e := ilog2 q
    ((roundHalfEven (q * (2 : ℚ) ^ ((52 : ℤ) - e)) : ℤ) : ℚ) * (2 : ℚ) ^ (e - (52 : ℤ))

/-- Exact decimal value denoted by an integer-part digit string and a
fractional-part digit string. -/
def decimalVal (ip fp : PyStr) : ℚ :=
  (digitsVal ip : ℚ) + (digitsVal fp : ℚ) / (10 : ℚ) ^ fp.length

/-- Embeds Python float(str) on the decimal forms the script feeds it:
an all-digit string, or two all-digit chunks around one decimal point (at
most one of them empty), valued exactly and then rounded to binary64.
Anything else (for instance a string with two decimal points) is a
ValueError, modelled as none. -/
def pyFloat (s : PyStr) : Option ℚ :=
  match pySplit (Char.ofNat 46) s with
  | [a] => if a ≠ [] ∧ a.all Char.isDigit = true then some (toDouble (digitsVal a)) else none
  | [a, b] =>
    if (a ≠ [] ∨ b ≠ []) ∧ a.all Char.isDigit = true ∧ b.all Char.isDigit = true then
      some (toDouble (decimalVal a b))
    else none
  | _ => none

/-- Embeds Python int(float) for the nonnegative values the script truncates:
truncation toward zero, which on the normalised rational is numerator
T-divided by denominator. -/
def pyTrunc (q : ℚ) : ℤ := q.num / (q.den : ℤ)

/-- Body of correct_E_Today once the kWh string has been split on the
decimal point: p0 and p1 are the first two chunks and kwh the whole string.
If int(p1) is below 10 the string is rebuilt as p0, a point, a zero and p1;
the result pairs int(float(corrected) * 1000), with the multiplication
rounding to binary64, with float(corrected). -/
def correctFromParts (p0 p1 kwh : PyStr) : Except PyError (ℤ × ℚ) :=
  match pyInt p1 with
  | none => .error .valueError
  | some v =>
    match pyFloat (if v < 10 then p0 ++ Char.ofNat 46 :: Char.ofNat 48 :: p1 else kwh) with
    | none => .error .valueError
    | some q => .ok (pyTrunc (toDouble (q * 1000)), q)

/-- Embeds correct_E_Today (src/zever-2-pvoutput.py lines 38 to 45).  The kWh
string is split on the decimal point; a missing second chunk is Python's
IndexError, a failed int() or float() a ValueError. -/
def correct_E_Today (kwh : PyStr) : Except PyError (ℤ × ℚ) :=
  match pySplit (Char.ofNat 46) kwh with
  | [] => .error .indexError
  | [_] => .error .indexError
  | p0 :: p1 :: _ => correctFromParts p0 p1 kwh

/-- Represents one parsed inverter reading: the dict built by
parse_inverter_data, with date and time stamped from the wall clock, the
status token from line index 12 of the payload, the integer power from line
index 10 and the corrected energy in watt-hours from line index 11. -/
structure Reading where
  date : PyStr
  time : PyStr
  status : PyStr
  PAC_W : ℕ
  E_TODAY : ℤ
  deriving DecidableEq

/-- Field extraction of parse_inverter_data on the newline-split lines: the
dict literal evaluates data[12] first, then int(data[10]), then
correct_E_Today(data[11]), so a payload of at most 12 lines raises
IndexError and a non-numeric power field raises ValueError before the
energy field is looked at.  Under the length guard, getD equals Python's
data[i]. -/
def parseFields (data : List PyStr) (date time : PyStr) : Except PyError Reading :=
  if 12 < data.length then
    match pyInt (data.getD 10 []) with
    | none => .error .valueError
    | some p =>
      match correct_E_Today (data.getD 11 []) with
      | .error e => .error e
      | .ok we => .ok ⟨date, time, data.getD 12 [], p, we.1⟩
  else .error .indexError

/-- Embeds parse_inverter_data (src/zever-2-pvoutput.py lines 49 to 61): the
raw text is split on newlines and the fields are extracted; date and time
are the wall-clock stamps taken at parse time. -/
def parse_inverter_data (raw : PyStr) (date time : PyStr) : Except PyError Reading :=
  parseFields (pySplit (Char.ofNat 10) raw) date time

/-- Python values appearing in CSV rows and form payloads: strings or ints. -/
inductive PyVal where
  | str (s : PyStr)
  | int (n : ℤ)
  deriving DecidableEq

/-- The five field names of the local database (line 179). -/
def fieldnames : List String := ["date", "time", "status", "PAC_W", "E_TODAY"]

/-- The header row written by writeheader on a fresh database (line 186). -/
def headerRow : List PyVal := fieldnames.map (fun f => PyVal.str f.toList)

/-- The CSV row DictWriter emits for a reading, values in fieldnames order
(lines 74 to 75). -/
def writerow (r : Reading) : List PyVal :=
  [.str r.date, .str r.time, .str r.status, .int (r.PAC_W : ℤ), .int r.E_TODAY]

/-- Embeds the database-creation block (lines 178 to 192): a missing file is
created holding just the header row; an existing file is left untouched.
The file is modelled as the list of its rows, none meaning absent. -/
def createDatabase (file : Option (List (List PyVal))) : List (List PyVal) :=
  match file with
  | none => [headerRow]
  | some rows => rows

/-- Embeds the append performed by log_inverter_data (lines 64 to 80): the
file is opened in append mode and exactly one data row is written. -/
def log_inverter_data (file : List (List PyVal)) (r : Reading) : List (List PyVal) :=
  file ++ [writerow r]

/-- Embeds the upload payload dict (lines 223 to 228): date, time, energy
and power under the keys d, t, v1 and v2. -/
def payload (r : Reading) : List (String × PyVal) :=
  [("d", .str r.date), ("t", .str r.time), ("v1", .int r.E_TODAY), ("v2", .int (r.PAC_W : ℤ))]

/-- Embeds daylight_hours (lines 24 to 34).  The astral sunrise and sunset
for the current date and the current wall-clock time are external inputs,
modelled as rational timestamps on a common axis. -/
def daylight_hours (sunrise sunset current_time : ℚ) : Bool :=
  if current_time > sunrise ∧ current_time < sunset then true else false

/-- Retry configuration carried by a requests session mounted with an
HTTPAdapter (lines 92 to 99). -/
structure RetryPolicy where
  total : ℕ
  backoff_factor : ℚ
  status_forcelist : List ℕ
  deriving DecidableEq

/-- Embeds requests_retry_session (lines 85 to 100) applied to explicit
arguments; the source's keyword defaults are retries 3, backoff_factor 0.3
and status_forcelist [500, 502, 504] (lines 86 to 88). -/
def requests_retry_session (retries : ℕ) (backoff_factor : ℚ)
    (status_forcelist : List ℕ) : RetryPolicy :=
  ⟨retries, backoff_factor, status_forcelist⟩

/-- The PVOutput session created at line 147 with the default arguments. -/
def pvoutput_session : RetryPolicy := requests_retry_session 3 (3/10) [500, 502, 504]

/-- The inverter session created at line 152 with the default arguments. -/
def inverter_session : RetryPolicy := requests_retry_session 3 (3/10) [500, 502, 504]

/-- Modelled from the spec: the retry loop of the urllib3 Retry class, which
is library code outside this repository.  Given the status codes the server
returns on successive attempts, a request is retried while the status is in
the forcelist and budget remains; the result is the number of retries
issued. -/
def retryCount (forcelist : List ℕ) (responses : ℕ → ℕ) : ℕ → ℕ → ℕ
  | 0, _ => 0
  | budget + 1, i =>
    if responses i ∈ forcelist then retryCount forcelist responses budget (i + 1) + 1 else 0

/-- Number of retries a session with policy p issues against a server
answering with the given status-code sequence. -/
def retriesUsed (p : RetryPolicy) (responses : ℕ → ℕ) : ℕ :=
  retryCount p.status_forcelist responses p.total 0

/-- An outbound HTTP request as issued by the script: method, url and the
per-call timeout argument if one is passed. -/
structure HttpCall where
  method : String
  url : String
  timeout : Option ℕ
  deriving DecidableEq

/-- The system-info request issued at startup (line 157), with timeout 5. -/
def getsystemCall : HttpCall :=
  ⟨"GET", "https://pvoutput.org/service/r2/getsystem.jsp", some 5⟩

/-- The device-status request of a polling cycle (line 206), with timeout 5. -/
def inverterCall (url : String) : HttpCall := ⟨"GET", url, some 5⟩

/-- The status-upload request of a polling cycle (line 231): no timeout
argument is passed to post there. -/
def addstatusCall : HttpCall :=
  ⟨"POST", "https://pvoutput.org/service/r2/addstatus.jsp", none⟩

/-- Result of the device fetch at lines 206 to 207, split by the except
clauses at lines 208 to 217 that catch it. -/
inductive FetchResult where
  | ok (body : PyStr)
  | httpError
  | connectionError
  | retryOrTimeout
  | otherError
  deriving DecidableEq

/-- Observable outcome of one iteration of the inner polling loop: crashed
holds the exception that escaped the loop if one did, logged the database
row written, uploaded the submitted form payload, calls the HTTP requests
issued, and slept whether the end-of-cycle sleep at line 239 was reached. -/
structure CycleOutcome where
  crashed : Option PyError
  logged : Option (List PyVal)
  uploaded : Option (List (String × PyVal))
  calls : List HttpCall
  slept : Bool
  deriving DecidableEq

/-- Embeds one iteration of the inner polling loop (lines 202 to 239).
External effects are parameters: fetch is the outcome of the device GET,
date and time the wall-clock stamps, recordFails whether the local write
raises (caught at lines 76 to 78) and uploadFails whether the upload POST
fails (caught at lines 233 to 234).  A failed fetch lands in an except
clause, skipping parse, record and upload but still reaching the sleep.
parse_inverter_data at line 219 runs in the else block outside any try, so
its exception escapes the loop: crashed is set, nothing is logged or
uploaded, no upload call is issued and the sleep is never reached. -/
def pollCycle (url : String) (fetch : FetchResult) (date time : PyStr)
    (recordFails uploadFails : Bool) : CycleOutcome :=
  match fetch with
  | .ok body =>
    match parse_inverter_data body date time with
    | .error e => ⟨some e, none, none, [inverterCall url], false⟩
    | .ok r =>
      ⟨none, if recordFails then none else some (writerow r),
        if uploadFails then none else some (payload r),
        [inverterCall url, addstatusCall], true⟩
  | _ => ⟨none, none, none, [inverterCall url], true⟩

/-- Result of the startup system-info request (lines 156 to 158), split by
the except clauses at lines 159 to 166: success carries the comma-split
response fields, an HTTPError carries the response reason. -/
inductive SysInfoResult where
  | ok (fields : List PyStr)
  | httpError (reason : String)
  | otherError
  deriving DecidableEq

/-- Outcome of the startup block from the system-info request to the
building of db_name (lines 156 to 181): the process exits; or it crashes
with a NameError on the unassigned system_name when building db_name,
recording which request interval, if any, was assigned by then; or it
crashes with another uncaught exception; or it reaches the database block
with a database name and a request interval. -/
inductive StartupOutcome where
  | exited (code : ℕ)
  | nameError (request_interval : Option ℕ)
  | crashed (e : PyError)
  | running (db_name : PyStr) (request_interval : ℕ)
  deriving DecidableEq

/-- Embeds lines 156 to 181.  On an HTTPError the handler exits only for
reason Unauthorized and otherwise falls through with neither system_name
nor request_interval assigned; on any other exception request_interval is
set to the default but system_name is still unassigned; in both cases
building db_name at line 180 hits the unbound system_name.  On success the
interval is the commandline override if given, else field 15 of the
response with its last three characters removed, parsed and multiplied by
60; system_name is field 0 and db_name appends a fixed suffix to it (the
comma split always yields at least one field, so getD equals data[0]). -/
def startup (r : SysInfoResult) (argInterval : Option ℕ)
    (defaultInterval : ℕ) : StartupOutcome :=
  match r with
  | .httpError reason =>
    if reason = "Unauthorized" then .exited 1 else .nameError none
  | .otherError => .nameError (some defaultInterval)
  | .ok fields =>
    match (match argInterval with
      | some i => Except.ok i
      | none =>
        if 15 < fields.length then
          match pyInt ((fields.getD 15 []).take ((fields.getD 15 []).length - 3)) with
          | some n => Except.ok (n * 60)
          | none => Except.error PyError.valueError
        else Except.error PyError.indexError : Except PyError ℕ) with
    | .error e => .crashed e
    | .ok i => .running (fields.getD 0 [] ++ (" database.csv").toList) i

/-- A thirteen-line device payload with status Normal, power 812 W and
energy 4.3 kWh, matching the end-to-end scenario of the spec. -/
def goodRaw : PyStr :=
  ("l0\nl1\nl2\nl3\nl4\nl5\nl6\nl7\nl8\nl9\n812\n4.3\nNormal").toList

/-- A concrete reading used in counterexamples. -/
def sampleReading : Reading :=
  ⟨("20251012").toList, ("10:30").toList, ("Normal").toList, 812, 4030⟩

lemma pySplit_cons_sep (sep : Char) (b : List Char) :
    pySplit sep (sep :: b) = [] :: pySplit sep b := by
  simp [pySplit]

lemma pySplit_no_sep (sep : Char) (a : List Char) (ha : sep ∉ a) :
    pySplit sep a = [a] := by
  induction a with
  | nil => rfl
  | cons c cs ih =>
    have hc : ¬ c = sep := by rintro rfl; exact ha (List.mem_cons_self _ _)
    have hcs : sep ∉ cs := fun h => ha (List.mem_cons_of_mem _ h)
    simp [pySplit, hc, ih hcs]

lemma pySplit_append_sep (sep : Char) (a b : List Char) (ha : sep ∉ a) :
    pySplit sep (a ++ sep :: b) = a :: pySplit sep b := by
  induction a with
  | nil => simpa using pySplit_cons_sep sep b
  | cons c cs ih =>
    have hc : ¬ c = sep := by rintro rfl; exact ha (List.mem_cons_self _ _)
    have hcs : sep ∉ cs := fun h => ha (List.mem_cons_of_mem _ h)
    simp [pySplit, hc, ih hcs]

lemma pySplit_pair (sep : Char) (a b : List Char) (ha : sep ∉ a) (hb : sep ∉ b) :
    pySplit sep (a ++ sep :: b) = [a, b] := by
  rw [pySplit_append_sep sep a b ha, pySplit_no_sep sep b hb]

lemma dot_not_mem_digits (a : List Char) (ha : a.all Char.isDigit = true) :
    Char.ofNat 46 ∉ a := by
  intro hmem
  have hdig := List.all_eq_true.mp ha _ hmem
  have : (Char.ofNat 46).isDigit = false := by decide
  rw [this] at hdig
  cases hdig

lemma pyInt_digits (a : PyStr) (h1 : a ≠ []) (h2 : a.all Char.isDigit = true) :
    pyInt a = some (digitsVal a) := by
  unfold pyInt
  rw [if_pos ⟨h1, h2⟩]

lemma pyFloat_pair (a b : PyStr) (hab : a ≠ [] ∨ b ≠ [])
    (ha : a.all Char.isDigit = true) (hb : b.all Char.isDigit = true) :
    pyFloat (a ++ Char.ofNat 46 :: b) = some (toDouble (decimalVal a b)) := by
  unfold pyFloat
  rw [pySplit_pair _ a b (dot_not_mem_digits a ha) (dot_not_mem_digits b hb)]
  exact if_pos ⟨hab, ha, hb⟩

lemma foldl_log (rs : List Reading) (file : List (List PyVal)) :
    rs.foldl log_inverter_data file = file ++ rs.map writerow := by
  induction rs generalizing file with
  | nil => simp
  | cons r rs ih => simp [log_inverter_data, ih]

lemma writerow_ne_headerRow (r : Reading) : writerow r ≠ headerRow := by
  simp [writerow, headerRow, fieldnames]

lemma correctFromParts_error_builtin (p0 p1 kwh : PyStr) (e : PyError)
    (h : correctFromParts p0 p1 kwh = .error e) :
    e = .indexError ∨ e = .valueError := by
  unfold correctFromParts at h
  split at h
  · cases h
    exact Or.inr rfl
  · split at h
    · cases h
      exact Or.inr rfl
    · exact Except.noConfusion h

lemma correct_E_Today_error_builtin (kwh : PyStr) (e : PyError)
    (h : correct_E_Today kwh = .error e) :
    e = .indexError ∨ e = .valueError := by
  unfold correct_E_Today at h
  rcases hsp : pySplit (Char.ofNat 46) kwh with _ | ⟨p0, _ | ⟨p1, rest⟩⟩
  · rw [hsp] at h
    cases h
    exact Or.inl rfl
  · rw [hsp] at h
    cases h
    exact Or.inl rfl
  · rw [hsp] at h
    exact correctFromParts_error_builtin p0 p1 kwh e h

lemma parseFields_error_builtin (data : List PyStr) (date time : PyStr) (e : PyError)
    (h : parseFields data date time = .error e) :
    e = .indexError ∨ e = .valueError := by
  unfold parseFields at h
  by_cases h12 : 12 < data.length
  · rw [if_pos h12] at h
    rcases hpi : pyInt (data.getD 10 []) with _ | p
    · rw [hpi] at h
      cases h
      exact Or.inr rfl
    · rw [hpi] at h
      rcases hce : correct_E_Today (data.getD 11 []) with e0 | we
      · rw [hce] at h
        cases h
        exact correct_E_Today_error_builtin _ _ hce
      · rw [hce] at h
        exact Except.noConfusion h
  · rw [if_neg h12] at h
    cases h
    exact Or.inl rfl

lemma parseFields_ok_stamps (data : List PyStr) (date time : PyStr) (r : Reading)
    (h : parseFields data date time = .ok r) :
    r.date = date ∧ r.time = time := by
  unfold parseFields at h
  by_cases h12 : 12 < data.length
  · rw [if_pos h12] at h
    rcases hpi : pyInt (data.getD 10 []) with _ | p
    · rw [hpi] at h
      exact Except.noConfusion h
    · rw [hpi] at h
      rcases hce : correct_E_Today (data.getD 11 []) with e0 | we
      · rw [hce] at h
        exact Except.noConfusion h
      · rw [hce] at h
        cases h
        exact ⟨rfl, rfl⟩
  · rw [if_neg h12] at h
    exact Except.noConfusion h

/-- C1 counterexample.  For the energy string 8.165 (fractional part 165,
so no padding) the script returns 8164 watt-hours, while the corrected kWh
value multiplied by 1000 and truncated is 8165: the binary64 product
999 times 8.165 falls just below the integer. -/
theorem C1_counterexample :
    (correct_E_Today (("8.165").toList)).map Prod.fst = .ok 8164
  ∧ pyTrunc (decimalVal ("8").toList ("165").toList * 1000) = 8165 := by
  decide

/-- C1 amended.  For every energy string made of a nonempty integer digit
chunk, a decimal point and a nonempty fractional digit chunk, the correction
pads the fractional part with exactly one leading zero if and only if its
integer value is below 10, and the reported energy is the corrected kWh
value read into an IEEE binary64 double, multiplied by 1000 in binary64,
and truncated to an integer; the exact-decimal product can differ from this
by one, as the 8.165 counterexample shows. -/
theorem C1_energy_correction (ip fp : PyStr)
    (hip : ip ≠ [] ∧ ip.all Char.isDigit = true)
    (hfp : fp ≠ [] ∧ fp.all Char.isDigit = true) :
    correct_E_Today (ip ++ Char.ofNat 46 :: fp) =
      .ok (pyTrunc (toDouble (toDouble (decimalVal ip
              (if digitsVal fp < 10 then Char.ofNat 48 :: fp else fp)) * 1000)),
        toDouble (decimalVal ip (if digitsVal fp < 10 then Char.ofNat 48 :: fp else fp))) := by
  obtain ⟨hip1, hip2⟩ := hip
  obtain ⟨hfp1, hfp2⟩ := hfp
  unfold correct_E_Today
  rw [pySplit_pair _ _ _ (dot_not_mem_digits ip hip2) (dot_not_mem_digits fp hfp2)]
  show correctFromParts ip fp (ip ++ Char.ofNat 46 :: fp) = _
  unfold correctFromParts
  rw [pyInt_digits fp hfp1 hfp2]
  show (match pyFloat (if digitsVal fp < 10 then ip ++ Char.ofNat 46 :: Char.ofNat 48 :: fp
        else ip ++ Char.ofNat 46 :: fp) with
      | none => Except.error PyError.valueError
      | some q => Except.ok (pyTrunc (toDouble (q * 1000)), q)) = _
  by_cases hv : digitsVal fp < 10
  · have hfp0 : (Char.ofNat 48 :: fp).all Char.isDigit = true := by
      rw [List.all_cons, hfp2]
      decide
    rw [if_pos hv, if_pos hv, pyFloat_pair ip (Char.ofNat 48 :: fp) (Or.inl hip1) hip2 hfp0]
  · rw [if_neg hv, if_neg hv, pyFloat_pair ip fp (Or.inl hip1) hip2 hfp2]

/-- C1 witness: the string 12.5 is padded to 12.05 and reported as 12050. -/
theorem C1_witness :
    correct_E_Today (("12").toList ++ Char.ofNat 46 :: ("5").toList) =
      .ok (12050, toDouble (decimalVal ("12").toList (Char.ofNat 48 :: ("5").toList))) :=
  (C1_energy_correction ("12").toList ("5").toList (by decide) (by decide)).trans (by decide)

/-- C2 counterexample.  A cycle whose fetch succeeds with an unparsable body
crashes: the IndexError raised inside parse_inverter_data escapes the loop,
because the parse runs in the else block outside any try. -/
theorem C2_counterexample :
    (pollCycle ("http://10.0.0.1/home.cgi") (.ok (("garbage").toList))
        ("20251012").toList ("10:30").toList false false).crashed =
      some .indexError := by
  decide

/-- C2 amended.  No error from the device fetch, the local record step or
the upload step terminates the process: a failed fetch leaves the cycle
uncrashed and still sleeping, and record or upload failures in a cycle with
a parsable body leave it uncrashed; but an exception raised while parsing
the fetched payload does propagate out of the polling loop and terminates
the process. -/
theorem C2_error_containment (url : String) (date time : PyStr)
    (recordFails uploadFails : Bool) (f : FetchResult) (body : PyStr) :
    ((∀ b, f ≠ FetchResult.ok b) →
      (pollCycle url f date time recordFails uploadFails).crashed = none
      ∧ (pollCycle url f date time recordFails uploadFails).slept = true)
  ∧ ((∃ r, parse_inverter_data body date time = .ok r) →
      (pollCycle url (.ok body) date time recordFails uploadFails).crashed = none)
  ∧ (∀ e, parse_inverter_data body date time = .error e →
      (pollCycle url (.ok body) date time recordFails uploadFails).crashed = some e) := by
  refine ⟨?_, ?_, ?_⟩
  · intro h
    cases f with
    | ok b => exact absurd rfl (h b)
    | httpError => exact ⟨rfl, rfl⟩
    | connectionError => exact ⟨rfl, rfl⟩
    | retryOrTimeout => exact ⟨rfl, rfl⟩
    | otherError => exact ⟨rfl, rfl⟩
  · rintro ⟨r, hr⟩
    simp [pollCycle, hr]
  · intro e he
    simp [pollCycle, he]

/-- C2 witness: a connection failure and a cycle with failing record and
upload steps both leave the loop uncrashed; the garbage body crashes it. -/
theorem C2_witness :
    (pollCycle ("http://10.0.0.1/home.cgi") .connectionError ("20251012").toList
        ("10:30").toList false false).crashed = none
  ∧ (pollCycle ("http://10.0.0.1/home.cgi") (.ok goodRaw) ("20251012").toList
        ("10:30").toList true true).crashed = none
  ∧ (pollCycle ("http://10.0.0.1/home.cgi") (.ok (("garbage").toList)) ("20251012").toList
        ("10:30").toList true true).crashed = some .indexError :=
  ⟨((C2_error_containment _ _ _ _ _ .connectionError ([])).1
      (fun _ h => FetchResult.noConfusion h)).1,
    (C2_error_containment ("http://10.0.0.1/home.cgi") ("20251012").toList ("10:30").toList
      true true (.ok goodRaw) goodRaw).2.1 ⟨sampleReading, by decide⟩,
    (C2_error_containment ("http://10.0.0.1/home.cgi") ("20251012").toList ("10:30").toList
      true true (.ok (("garbage").toList)) (("garbage").toList)).2.2 .indexError (by decide)⟩

/-- C4 counterexample.  The payload of a successfully parsed reading holds
only d, t, v1 and v2: no cumulative-flag field c1 is sent. -/
theorem C4_counterexample :
    parse_inverter_data goodRaw ("20251012").toList ("10:30").toList = .ok sampleReading
  ∧ ("c1") ∉ (payload sampleReading).map Prod.fst := by
  decide

/-- C4 amended.  For every successfully parsed reading, the upload request
is a form payload carrying the wall-clock date as d, the wall-clock time as
t, the cumulative energy in watt-hours as v1 and the instantaneous power in
watts as v2, and nothing else: in particular no cumulative-flag field c1 is
included. -/
theorem C4_upload_payload (url : String) (date time raw : PyStr) (r : Reading)
    (recordFails : Bool) (h : parse_inverter_data raw date time = .ok r) :
    (pollCycle url (.ok raw) date time recordFails false).uploaded =
      some [("d", PyVal.str date), ("t", PyVal.str time),
        ("v1", PyVal.int r.E_TODAY), ("v2", PyVal.int (r.PAC_W : ℤ))]
  ∧ (payload r).map Prod.fst = ["d", "t", "v1", "v2"]
  ∧ ("c1") ∉ (payload r).map Prod.fst := by
  obtain ⟨hd, ht⟩ := parseFields_ok_stamps _ _ _ _ h
  refine ⟨?_, rfl, by simp [payload]⟩
  simp [pollCycle, h, payload, hd, ht]

/-- C4 witness: the payload uploaded for the thirteen-line sample body. -/
theorem C4_witness :
    (pollCycle ("http://10.0.0.1/home.cgi") (.ok goodRaw) ("20251012").toList
        ("10:30").toList false false).uploaded =
      some [("d", PyVal.str (("20251012").toList)), ("t", PyVal.str (("10:30").toList)),
        ("v1", PyVal.int 4030), ("v2", PyVal.int 812)] :=
  ((C4_upload_payload ("http://10.0.0.1/home.cgi") ("20251012").toList ("10:30").toList
      goodRaw sampleReading false (by decide)).1).trans (by decide)

/-- C5 counterexample.  A one-line payload makes the parser fail with the
built-in IndexError, not with a MalformedInputError (no such class exists
in the script). -/
theorem C5_counterexample :
    parse_inverter_data ("x").toList ("20251012").toList ("10:30").toList =
      .error .indexError
  ∧ PyError.indexError ≠ PyError.malformedInput := by
  decide

/-- C5 amended.  For every raw payload with an absent field (too few lines,
or an energy string without a decimal point, which surfaces through the
energy correction failing) or a non-numeric field, the parser fails, but
with one of the built-in IndexError or ValueError, never with a
MalformedInputError. -/
theorem C5_builtin_failures (raw date time : PyStr)
    (h : (pySplit (Char.ofNat 10) raw).length ≤ 12
       ∨ pyInt ((pySplit (Char.ofNat 10) raw).getD 10 []) = none
       ∨ ∃ e0, correct_E_Today ((pySplit (Char.ofNat 10) raw).getD 11 []) = .error e0) :
    ∃ e, parse_inverter_data raw date time = .error e
      ∧ (e = .indexError ∨ e = .valueError) ∧ e ≠ .malformedInput := by
  by_cases h12 : 12 < (pySplit (Char.ofNat 10) raw).length
  · rcases hpi : pyInt ((pySplit (Char.ofNat 10) raw).getD 10 []) with _ | p
    · refine ⟨.valueError, ?_, Or.inr rfl, by decide⟩
      unfold parse_inverter_data parseFields
      rw [if_pos h12, hpi]
    · rcases h with h | h | ⟨e0, he0⟩
      · omega
      · rw [hpi] at h
        exact Option.noConfusion h
      · have hkind := correct_E_Today_error_builtin _ _ he0
        refine ⟨e0, ?_, hkind, ?_⟩
        · unfold parse_inverter_data parseFields
          rw [if_pos h12, hpi, he0]
        · rcases hkind with rfl | rfl <;> decide
  · refine ⟨.indexError, ?_, Or.inl rfl, by decide⟩
    unfold parse_inverter_data parseFields
    rw [if_neg h12]

/-- C5 witness: the one-line payload is malformed and the parser fails with
a built-in error. -/
theorem C5_witness :
    ((pySplit (Char.ofNat 10) (("x").toList)).length ≤ 12
      ∨ pyInt ((pySplit (Char.ofNat 10) (("x").toList)).getD 10 []) = none
      ∨ ∃ e0, correct_E_Today ((pySplit (Char.ofNat 10) (("x").toList)).getD 11 []) = .error e0)
  ∧ ∃ e, parse_inverter_data ("x").toList ([]) ([]) = .error e
      ∧ (e = .indexError ∨ e = .valueError) ∧ e ≠ .malformedInput :=
  ⟨Or.inl (by decide), C5_builtin_failures ("x").toList ([]) ([]) (Or.inl (by decide))⟩

lemma inverterCall_timeout_props (url : String) :
    ((inverterCall url).method = ("GET") → (inverterCall url).timeout = some 5)
    ∧ ((inverterCall url).method = ("POST") → (inverterCall url).timeout = none) := by
  constructor
  · intro _
    rfl
  · intro h
    have hgp : ("GET" : String) = ("POST") := h
    exact absurd hgp (by decide)

lemma addstatusCall_timeout_props :
    (addstatusCall.method = ("GET") → addstatusCall.timeout = some 5)
    ∧ (addstatusCall.method = ("POST") → addstatusCall.timeout = none) :=
  ⟨fun h => absurd h (by decide), fun _ => rfl⟩

/-- C9 counterexample.  A successful cycle issues the status-upload POST
with no timeout argument: not every outbound call carries an explicit
per-call timeout. -/
theorem C9_counterexample :
    addstatusCall ∈ (pollCycle ("http://10.0.0.1/home.cgi") (.ok goodRaw)
        ("20251012").toList ("10:30").toList false false).calls
  ∧ addstatusCall.timeout = none := by
  decide

/-- C9 amended.  The startup system-info GET and the device-status GET each
carry an explicit 5-second timeout, but the status-upload POST carries no
per-call timeout: every GET issued by a polling cycle has timeout 5 and
every POST issued by one has none. -/
theorem C9_call_timeouts (url : String) (f : FetchResult) (date time : PyStr)
    (recordFails uploadFails : Bool) :
    getsystemCall.timeout = some 5
  ∧ ∀ c ∈ (pollCycle url f date time recordFails uploadFails).calls,
      (c.method = ("GET") → c.timeout = some 5)
      ∧ (c.method = ("POST") → c.timeout = none) := by
  refine ⟨rfl, ?_⟩
  intro c hc
  cases f with
  | ok body =>
    rcases hp : parse_inverter_data body date time with e | r
    · simp only [pollCycle, hp] at hc
      simp only [List.mem_singleton] at hc
      subst hc
      exact inverterCall_timeout_props url
    · simp only [pollCycle, hp] at hc
      simp only [List.mem_cons, List.not_mem_nil, or_false] at hc
      rcases hc with rfl | rfl
      · exact inverterCall_timeout_props url
      · exact addstatusCall_timeout_props
  | httpError =>
    simp only [pollCycle, List.mem_singleton] at hc
    subst hc
    exact inverterCall_timeout_props url
  | connectionError =>
    simp only [pollCycle, List.mem_singleton] at hc
    subst hc
    exact inverterCall_timeout_props url
  | retryOrTimeout =>
    simp only [pollCycle, List.mem_singleton] at hc
    subst hc
    exact inverterCall_timeout_props url
  | otherError =>
    simp only [pollCycle, List.mem_singleton] at hc
    subst hc
    exact inverterCall_timeout_props url

/-- C9 witness: the device GET of a failed cycle carries timeout 5. -/
theorem C9_witness :
    (inverterCall ("http://10.0.0.1/home.cgi")).timeout = some 5 :=
  ((C9_call_timeouts ("http://10.0.0.1/home.cgi") .httpError ([]) ([]) false false).2
    (inverterCall ("http://10.0.0.1/home.cgi")) (by decide)).1 rfl

/-- C3.  The daylight gate returns true exactly when the current time is
strictly after the computed sunrise and strictly before the computed sunset,
and in particular returns false exactly at sunrise and exactly at sunset. -/
theorem C3_daylight_gate (sunrise sunset current_time : ℚ) :
    (daylight_hours sunrise sunset current_time = true ↔
      sunrise < current_time ∧ current_time < sunset)
  ∧ daylight_hours sunrise sunset sunrise = false
  ∧ daylight_hours sunrise sunset sunset = false := by
  refine ⟨?_, ?_, ?_⟩
  · simp [daylight_hours, gt_iff_lt]
  · simp [daylight_hours, lt_irrefl]
  · simp [daylight_hours, lt_irrefl]

/-- C6.  Both requests sessions are configured with a total retry budget of
3, an exponential backoff factor of 0.3 and retryable status codes 500, 502
and 504; against a server answering with any one of those codes the full
budget of 3 retries is spent, and against any 4xx code no retry is made. -/
theorem C6_retry_policy :
    pvoutput_session.total = 3
  ∧ pvoutput_session.backoff_factor = 3/10
  ∧ pvoutput_session.status_forcelist = [500, 502, 504]
  ∧ inverter_session = pvoutput_session
  ∧ (∀ s ∈ pvoutput_session.status_forcelist, retriesUsed pvoutput_session (fun _ => s) = 3)
  ∧ (∀ s, 400 ≤ s → s < 500 → retriesUsed pvoutput_session (fun _ => s) = 0) := by
  refine ⟨rfl, rfl, rfl, rfl, by decide, ?_⟩
  intro s h1 h2
  have hs : s ∉ ([500, 502, 504] : List ℕ) := by
    intro hmem
    simp only [List.mem_cons, List.not_mem_nil, or_false] at hmem
    rcases hmem with rfl | rfl | rfl <;> omega
  simp [retriesUsed, retryCount, pvoutput_session, requests_retry_session, hs]

/-- C6 witness: the 502 stream consumes all 3 retries, the 404 stream none. -/
theorem C6_witness :
    retriesUsed pvoutput_session (fun _ => 502) = 3
  ∧ retriesUsed pvoutput_session (fun _ => 404) = 0 :=
  ⟨C6_retry_policy.2.2.2.2.1 502 (by decide),
   C6_retry_policy.2.2.2.2.2 404 (by decide) (by decide)⟩

/-- C7.  On a fresh path the database is created holding exactly the header
row naming date, time, status, PAC_W and E_TODAY in that order; after any
sequence of record calls the file is that header followed by one data row
per call in fieldnames order, the header occurring exactly once; an
existing file is left untouched by the creation step. -/
theorem C7_recorder (rs : List Reading) :
    createDatabase none = [headerRow]
  ∧ headerRow = [PyVal.str ("date").toList, PyVal.str ("time").toList,
      PyVal.str ("status").toList, PyVal.str ("PAC_W").toList, PyVal.str ("E_TODAY").toList]
  ∧ rs.foldl log_inverter_data (createDatabase none) = headerRow :: rs.map writerow
  ∧ (rs.foldl log_inverter_data (createDatabase none)).count headerRow = 1
  ∧ (∀ file, createDatabase (some file) = file) := by
  refine ⟨rfl, by decide, ?_, ?_, fun _ => rfl⟩
  · rw [foldl_log]; rfl
  · rw [foldl_log]
    show List.count headerRow ([headerRow] ++ rs.map writerow) = 1
    rw [List.count_append]
    have h0 : List.count headerRow (rs.map writerow) = 0 := by
      rw [List.count_eq_zero]
      intro hmem
      obtain ⟨r, _, hr⟩ := List.mem_map.mp hmem
      exact writerow_ne_headerRow r hr
    rw [h0]
    rfl

/-- C8.  In a cycle whose device fetch fails in any of the caught ways, the
loop does not crash, parses nothing, writes no row, uploads nothing, issues
only the device GET, and still reaches the end-of-cycle sleep so that the
next iteration runs. -/
theorem C8_fetch_failure_cycle (url : String) (date time : PyStr)
    (recordFails uploadFails : Bool) (f : FetchResult)
    (h : ∀ b, f ≠ FetchResult.ok b) :
    pollCycle url f date time recordFails uploadFails =
      ⟨none, none, none, [inverterCall url], true⟩ := by
  cases f with
  | ok b => exact absurd rfl (h b)
  | httpError => rfl
  | connectionError => rfl
  | retryOrTimeout => rfl
  | otherError => rfl

/-- C8 witness: a connection-refused cycle at a concrete url. -/
theorem C8_witness :
    pollCycle ("http://192.168.1.50/home.cgi") .connectionError
        ("20251012").toList ("10:30").toList false false =
      ⟨none, none, none, [inverterCall ("http://192.168.1.50/home.cgi")], true⟩ :=
  C8_fetch_failure_cycle _ _ _ _ _ _ (fun _ h => FetchResult.noConfusion h)

/-- C10.  When the startup system-info request fails with an HTTPError whose
reason is not Unauthorized, the handler falls through with neither
system_name nor request_interval assigned and building db_name crashes on
the unbound system_name; when it fails with any other exception, the
interval falls back to the default but system_name is still unassigned and
the same crash occurs; so the fall-back path never reaches the polling
loop. -/
theorem C10_startup_name_error (reason : String) (h : reason ≠ "Unauthorized")
    (argInterval : Option ℕ) (defaultInterval : ℕ) :
    startup (.httpError reason) argInterval defaultInterval = .nameError none
  ∧ startup .otherError argInterval defaultInterval =
      .nameError (some defaultInterval) := by
  constructor
  · simp [startup, h]
  · rfl

/-- C10 witness: a 404-style failure and a timeout-style failure at startup
both end in the NameError crash. -/
theorem C10_witness :
    startup (.httpError ("Not Found")) none 600 = .nameError none
  ∧ startup .otherError none 600 = .nameError (some 600) :=
  C10_startup_name_error ("Not Found") (by decide) none 600

end Zever

open Zever in
/-- The three energy examples cited by the spec, evaluated on the embedded
code: 12.5 pads to 12.05 giving 12050, 12.75 is unchanged giving 12750 and
4.3 pads to 4.03 giving 4030. -/
lemma spec_energy_examples :
    (correct_E_Today (("12.5").toList)).map Prod.fst = .ok 12050
  ∧ (correct_E_Today (("12.75").toList)).map Prod.fst = .ok 12750
  ∧ (correct_E_Today (("4.3").toList)).map Prod.fst = .ok 4030 := by
  refine ⟨by decide, by decide, by decide⟩
